import Mathlib

/-
Verification development for the DeveloperEmail client library
(src/developer/email.py, src/developer/models.py, src/developer/error.py).

The Python code is shallowly embedded: every operation becomes a pure Lean
function over explicit oracles describing what the remote service and the
wall clock do.  Raised Python exceptions become `Except.error` values of
type `PyError`; observable side effects (HTTP attempts being issued,
`asyncio.sleep` calls) are collected in an event trace.
-/

namespace DevMail

/-- A JSON value as produced by `await response.json()`.  Python `None` and
JSON `null` are both represented by `JVal.null`, matching Python where both
are the single object `None`. -/
inductive JVal where
| null : JVal
| b : Bool → JVal
| i : Int → JVal
| s : String → JVal
| arr : List JVal → JVal
| obj : List (String × JVal) → JVal

/-- Association-list lookup with Python dict semantics (first binding wins):
the value behind `d.get(k)` when the key is present. -/
def dictFind (fields : List (String × JVal)) (k : String) : Option JVal :=
(fields.find? (fun kv => kv.fst == k)).map (fun kv => kv.snd)

/-- Python `data.get("result")` on the parsed response body: a missing key
yields `None` (`JVal.null`). -/
def pyGetResult (body : List (String × JVal)) : JVal :=
(dictFind body "result").getD JVal.null

/-- The Python exceptions that the embedded code can raise.
`emailException stats message` is a constructed `EmailException`
(src/developer/error.py stores the first argument in the field `stats`);
the others are built-in Python exception kinds. -/
inductive PyError where
| emailException : Option Int → String → PyError
| typeError : String → PyError
| valueError : String → PyError
| keyError : String → PyError
deriving DecidableEq

/-- The `EmailException` class of src/developer/error.py: its `init` method
has keyword parameters `stats` and `message` (in that order). -/
structure EmailException where
stats : Option Int
message : String

/-- A Python keyword call `EmailException(<k1>=v1, message=m)` as written at
the raise sites of src/developer/email.py.  Python binds keyword arguments
by name against the parameter list `(stats, message)` of
`EmailException.init`; a keyword that names no parameter raises
`TypeError` before any exception object exists. -/
def EmailException.call (k1 : String) (v1 : Option Int) (m : String) :
    Except PyError EmailException :=
if k1 = "stats" then
  Except.ok { stats := v1, message := m }
else
  Except.error (PyError.typeError ("init got an unexpected keyword argument " ++ k1))

/-- Python `raise EmailException(<k1>=v1, message=m)`: evaluating the
constructor call may itself raise (and that exception is the one that
propagates); otherwise the freshly constructed `EmailException` is raised. -/
def raiseEmailException (k1 : String) (v1 : Option Int) (m : String) : PyError :=
match EmailException.call k1 v1 m with
| Except.ok e => PyError.emailException e.stats e.message
| Except.error err => err

/-- The outcome of one attempt of the transport call
`self.session.request(...)` inside `DeveloperEmail.__http_req`:
either a transport-level exception (connection failure, per-attempt
timeout, ...) carrying its `str(e)`, or an HTTP response with a status
code and a parsed JSON object body (the service wraps every payload in a
`\x7b "result": ... \x7d` envelope object). -/
inductive HttpAttempt where
| exn : String → HttpAttempt
| resp : Nat → List (String × JVal) → HttpAttempt

/-- Observable effects of the embedded code: an HTTP attempt being issued
(method, url, JSON payload of the request) and a call to `asyncio.sleep`
with the given number of seconds. -/
inductive Event where
| request : String → String → Option JVal → Event
| sleep : Int → Event

/-- The retry loop of `DeveloperEmail.__http_req` (src/developer/email.py
lines 45-65), from loop index `attempt` on.  `oracle n` is the outcome of
the transport call made by loop iteration `n`.  Per iteration: on status
200 the body is parsed and `data.get("result")` returned; on any other
status the loop moves to the next attempt without looking at the body; on
a transport exception the code raises `EmailException(status=500,
message=str(e))` if this was the final attempt and otherwise sleeps one
second and retries.  When `range(attempts)` is exhausted the code raises
`EmailException(status=500, message="Failed after multiple attempts")`. -/
def http_req_loop (oracle : Nat → HttpAttempt) (method url : String)
    (payload : Option JVal) (attempts : Nat) :
    Nat → Nat → List Event × Except PyError JVal
| _, 0 =>
  ([], Except.error (raiseEmailException "status" (some 500) "Failed after multiple attempts"))
| attempt, Nat.succ remaining =>
  match oracle attempt with
  | HttpAttempt.resp status body =>
    if status = 200 then
      ([Event.request method url payload], Except.ok (pyGetResult body))
    else
      let rest := http_req_loop oracle method url payload attempts (attempt + 1) remaining
      (Event.request method url payload :: rest.1, rest.2)
  | HttpAttempt.exn e =>
    if attempt = attempts - 1 then
      ([Event.request method url payload],
        Except.error (raiseEmailException "status" (some 500) e))
    else
      let rest := http_req_loop oracle method url payload attempts (attempt + 1) remaining
      (Event.request method url payload :: Event.sleep 1 :: rest.1, rest.2)

/-- `DeveloperEmail.__http_req(method, url, ..., attempts)`: run the retry
loop over `range(attempts)` from `attempt = 0`, the second counter holding
how many of the `attempts` iterations remain.  The default in the source
is `attempts = 3`; call sites of this model pass it explicitly. -/
def http_req (oracle : Nat → HttpAttempt) (method url : String)
    (payload : Option JVal) (attempts : Nat) :
    List Event × Except PyError JVal :=
http_req_loop oracle method url payload attempts 0 attempts

/-- The quote character Python `repr` puts around strings. -/
def sq : String := String.singleton (Char.ofNat 39)

mutual

/-- Python `str(v)` of a parsed JSON value, as interpolated by the f-string
in `CreateEmail.from_dict`.  Scalars print as Python prints them
(`None`, `True`, `False`, decimal integers, the raw string); containers
print via `repr` of their elements, as Python `str` does for `list` and
`dict` (string escaping inside `repr` is not modelled). -/
def pyStr : JVal → String
| JVal.null => "None"
| JVal.b true => "True"
| JVal.b false => "False"
| JVal.i n => toString n
| JVal.s v => v
| JVal.arr vs => "[" ++ pyReprSeq vs ++ "]"
| JVal.obj fs => "\x7b" ++ pyReprFields fs ++ "\x7d"

/-- Python `repr(v)` of a parsed JSON value (strings get quotes). -/
def pyRepr : JVal → String
| JVal.null => "None"
| JVal.b true => "True"
| JVal.b false => "False"
| JVal.i n => toString n
| JVal.s v => sq ++ v ++ sq
| JVal.arr vs => "[" ++ pyReprSeq vs ++ "]"
| JVal.obj fs => "\x7b" ++ pyReprFields fs ++ "\x7d"

/-- Comma-separated `repr`s of the elements of a Python list. -/
def pyReprSeq : List JVal → String
| [] => ""
| [v] => pyRepr v
| v :: rest => pyRepr v ++ ", " ++ pyReprSeq rest

/-- Comma-separated `key: value` entries of a Python dict. -/
def pyReprFields : List (String × JVal) → String
| [] => ""
| [kv] => sq ++ kv.fst ++ sq ++ ": " ++ pyRepr kv.snd
| kv :: rest => sq ++ kv.fst ++ sq ++ ": " ++ pyRepr kv.snd ++ ", " ++ pyReprFields rest

end

/-- Python subscription `d[k]` with a string key on a parsed JSON value:
on a dict it is lookup (raising `KeyError` when absent); every other shape
raises `TypeError` (`None`, numbers and lists are not subscriptable by a
string, string indices must be integers). -/
def subscript (d : JVal) (k : String) : Except PyError JVal :=
match d with
| JVal.obj fields =>
  match dictFind fields k with
  | some v => Except.ok v
  | none => Except.error (PyError.keyError k)
| _ => Except.error (PyError.typeError "value is not subscriptable with a string key")

/-- Decimal digits folded into a natural-number accumulator; `none` on the
first non-digit character. -/
def digitsToNat : List Char → Nat → Option Nat
| [], acc => some acc
| c :: cs, acc =>
  if c.isDigit then digitsToNat cs (acc * 10 + (c.toNat - 48)) else none

/-- Python `int(s)` on a string: an optional minus sign followed by at least
one decimal digit (surrounding whitespace, a plus sign and digit-group
underscores, which Python also accepts, are not modelled — the service
sends bare decimal ids). -/
def pyParseInt (s : String) : Option Int :=
match s.toList with
| [] => none
| c :: cs =>
  if c = '-' then
    match cs with
    | [] => none
    | _ => (digitsToNat cs 0).map (fun n => -(n : Int))
  else (digitsToNat (c :: cs) 0).map (fun n => (n : Int))

/-- Python `int(x)` as used by `EmailIds.from_dict`: a string is parsed as a
decimal integer (raising `ValueError` when it is not one), an int is
returned as is, a bool is its numeric value, anything else raises
`TypeError`. -/
def pyToInt : JVal → Except PyError Int
| JVal.s v =>
  match pyParseInt v with
  | some n => Except.ok n
  | none => Except.error (PyError.valueError ("invalid literal for int: " ++ v))
| JVal.i n => Except.ok n
| JVal.b true => Except.ok 1
| JVal.b false => Except.ok 0
| _ => Except.error (PyError.typeError "int() argument must be a string or a number")

/-- Python iteration `for x in data` over a parsed JSON value: a list yields
its elements, a string yields its one-character substrings, everything
else raises `TypeError` (not iterable). -/
def pyIter : JVal → Except PyError (List JVal)
| JVal.arr vs => Except.ok vs
| JVal.s v => Except.ok (v.toList.map (fun c => JVal.s (String.singleton c)))
| _ => Except.error (PyError.typeError "value is not iterable")

/-- Python membership `k in d` for a string `k`: key test on a dict,
substring test on a string, elementwise equality on a list (a string
compares equal only to an equal string), `TypeError` otherwise. -/
def pyContains (d : JVal) (k : String) : Except PyError Bool :=
match d with
| JVal.obj fields => Except.ok (fields.any (fun kv => kv.fst == k))
| JVal.s v => Except.ok ((v.splitOn k).length != 1)
| JVal.arr vs =>
  Except.ok (vs.any (fun x => match x with
    | JVal.s t => t == k
    | _ => false))
| _ => Except.error (PyError.typeError "argument of type is not iterable")

/-- The `Ids` dataclass of src/developer/models.py. -/
structure Ids where
id : Int
deriving DecidableEq

/-- The `EmailIds` dataclass of src/developer/models.py. -/
structure EmailIds where
mails : List Ids
deriving DecidableEq

/-- The `Email` dataclass of src/developer/models.py.  Python annotates
`id` with `int` but stores `d["key"]` unchecked, so the field holds the
raw JSON value; `content` is `Any`. -/
structure Email where
id : JVal
content : JVal

/-- The `ViewEmail` dataclass of src/developer/models.py. -/
structure ViewEmail where
mails : List Email

/-- The `CreateEmail` dataclass of src/developer/models.py.  `name` and
`token` hold the raw JSON values taken from the response; `domain` and
`email` are the strings the constructor call builds. -/
structure CreateEmail where
name : JVal
domain : String
email : String
token : JVal

/-- `CreateEmail.from_dict(data)` (src/developer/models.py lines 11-17):
`data["name"]` and `data["token"]` are read off the response payload
(`KeyError` when absent, `TypeError` when `data` is not a dict), the
domain is the constant string, and the address is the f-string
interpolation of the name with the constant domain. -/
def CreateEmail.from_dict (data : JVal) : Except PyError CreateEmail :=
match subscript data "name" with
| Except.error e => Except.error e
| Except.ok n =>
  match subscript data "token" with
  | Except.error e => Except.error e
  | Except.ok t =>
    Except.ok { name := n, domain := "developermail.com",
                email := pyStr n ++ "@developermail.com", token := t }

/-- `EmailIds.from_dict(data)` (src/developer/models.py lines 27-30): the
list comprehension `[Ids(id=int(id_str)) for id_str in data]`. -/
def EmailIds.from_dict (data : JVal) : Except PyError EmailIds :=
match pyIter data with
| Except.error e => Except.error e
| Except.ok xs =>
  match xs.mapM (fun x => (pyToInt x).map Ids.mk) with
  | Except.error e => Except.error e
  | Except.ok ids => Except.ok { mails := ids }

/-- The loop body of `ViewEmail.from_dict` (src/developer/models.py lines
41-49) folded over the records: each record with both a `key` and a
`value` member contributes `Email(id=d["key"], content=d["value"])`, in
response order; any other record makes the loop raise
`ValueError("Invalid format for email data dictionary")`. -/
def viewEmailEntries : List JVal → Except PyError (List Email)
| [] => Except.ok []
| d :: rest =>
  match pyContains d "key" with
  | Except.error e => Except.error e
  | Except.ok hasKey =>
    if hasKey then
      match pyContains d "value" with
      | Except.error e => Except.error e
      | Except.ok hasValue =>
        if hasValue then
          match subscript d "key" with
          | Except.error e => Except.error e
          | Except.ok k =>
            match subscript d "value" with
            | Except.error e => Except.error e
            | Except.ok v =>
              match viewEmailEntries rest with
              | Except.error e => Except.error e
              | Except.ok tail => Except.ok ({ id := k, content := v } :: tail)
        else Except.error (PyError.valueError "Invalid format for email data dictionary")
    else Except.error (PyError.valueError "Invalid format for email data dictionary")

/-- `ViewEmail.from_dict(data)` (src/developer/models.py lines 41-49):
iterate over the records (raising `TypeError` when `data` is `None` or
otherwise not iterable) and collect the emails. -/
def ViewEmail.from_dict (data : JVal) : Except PyError ViewEmail :=
match pyIter data with
| Except.error e => Except.error e
| Except.ok xs =>
  match viewEmailEntries xs with
  | Except.error e => Except.error e
  | Except.ok emails => Except.ok { mails := emails }

/-- `self.base_url` as set in `DeveloperEmail.init`. -/
def base_url (version : String) : String :=
"https://www.developermail.com/api/" ++ version

/-- `DeveloperEmail.create_mail` (src/developer/email.py lines 67-82):
a `PUT /mailbox` through `__http_req`, whose unwrapped result is fed to
`CreateEmail.from_dict`. -/
def create_mail (oracle : Nat → HttpAttempt) (version : String) :
    List Event × Except PyError CreateEmail :=
let r := http_req oracle "PUT" (base_url version ++ "/mailbox") none 3
(r.1, r.2.bind CreateEmail.from_dict)

/-- `DeveloperEmail.get_message_ids` (src/developer/email.py lines 84-107):
a `GET /mailbox/\x7bmailbox_name\x7d` through `__http_req`, whose
unwrapped result is fed to `EmailIds.from_dict`.  The token travels in a
header and does not influence the embedded control flow. -/
def get_message_ids (oracle : Nat → HttpAttempt)
    (version mailbox_name token : String) :
    List Event × Except PyError EmailIds :=
let r := http_req oracle "GET" (base_url version ++ "/mailbox/" ++ mailbox_name) none 3
(r.1, r.2.bind EmailIds.from_dict)

/-- `DeveloperEmail.get_messages` (src/developer/email.py lines 109-141):
a `POST /mailbox/\x7bmailbox_name\x7d/messages` with payload
`\x7b"message_ids": [...]\x7d` through `__http_req`, whose unwrapped
result is fed to `ViewEmail.from_dict`. -/
def get_messages (oracle : Nat → HttpAttempt)
    (version mailbox_name token : String) (message_ids : List JVal) :
    List Event × Except PyError ViewEmail :=
let r := http_req oracle "POST"
  (base_url version ++ "/mailbox/" ++ mailbox_name ++ "/messages")
  (some (JVal.obj [("message_ids", JVal.arr message_ids)])) 3
(r.1, r.2.bind ViewEmail.from_dict)

/-- The environment a run of `wait_for_email` observes.  `clock n` is the
value of the n-th call to `time.time()` (call 0 is `start_time` at line
170; the test at the top of loop iteration `i` is call `i + 1`).
`listHttp i` and `fetchHttp i` are the transport oracles backing the
`get_message_ids`, resp. `get_messages`, call made by iteration `i`. -/
structure WaitEnv where
clock : Nat → Int
listHttp : Nat → Nat → HttpAttempt
fetchHttp : Nat → Nat → HttpAttempt

/-- The `while` loop of `DeveloperEmail.wait_for_email`
(src/developer/email.py lines 171-183) from iteration `i` on, with `fuel`
bounding how many further iterations are unrolled (`none` means the loop
is still polling when the fuel runs out; the Python loop itself has no
iteration bound).  Per iteration: if `time.time() - start_time < timeout`
fails, the loop ends and the code raises
`EmailException(status=None, message=f"Could not retrieve any message
after \x7btimeout\x7d seconds")`.  Otherwise `get_message_ids` runs (its
exceptions propagate); `message_ids and message_ids.mails` is truthy
exactly when the `mails` list is non-empty, in which case
`get_messages` is called on the one-element list holding
`message_ids.mails[-1].id` and — because a `ViewEmail` dataclass instance
has no `len` or `bool` method and is therefore always truthy — the
`if messages:` test succeeds and the result is returned no matter how
many mails it holds.  With an empty id list the iteration falls through
to `asyncio.sleep(check_interval)` and the loop retries. -/
def wait_loop (env : WaitEnv) (version mailbox_name token : String)
    (timeout check_interval start_time : Int) :
    Nat → Nat → List Event × Option (Except PyError ViewEmail)
| _, 0 => ([], none)
| i, Nat.succ fuel =>
  if env.clock (i + 1) - start_time < timeout then
    match get_message_ids (env.listHttp i) version mailbox_name token with
    | (evs1, Except.error e) => (evs1, some (Except.error e))
    | (evs1, Except.ok message_ids) =>
      match message_ids.mails.getLast? with
      | none =>
        let rest := wait_loop env version mailbox_name token
          timeout check_interval start_time (i + 1) fuel
        (evs1 ++ Event.sleep check_interval :: rest.1, rest.2)
      | some last =>
        match get_messages (env.fetchHttp i) version mailbox_name token
            [JVal.i last.id] with
        | (evs2, Except.error e) => (evs1 ++ evs2, some (Except.error e))
        | (evs2, Except.ok messages) => (evs1 ++ evs2, some (Except.ok messages))
  else
    ([], some (Except.error (raiseEmailException "status" none
      ("Could not retrieve any message after " ++ toString timeout ++ " seconds"))))

/-- `DeveloperEmail.wait_for_email` (src/developer/email.py lines 143-183):
record `start_time = time.time()` and run the poll loop from iteration 0. -/
def wait_for_email (env : WaitEnv) (version mailbox_name token : String)
    (timeout check_interval : Int) (fuel : Nat) :
    List Event × Option (Except PyError ViewEmail) :=
wait_loop env version mailbox_name token timeout check_interval (env.clock 0) 0 fuel

/-- A transport oracle whose every attempt yields the same outcome. -/
def constAttempt (a : HttpAttempt) : Nat → HttpAttempt := fun _ => a

/-- A service-side JSON envelope `\x7b"result": v\x7d`. -/
def envelope (v : JVal) : List (String × JVal) :=
[("result", v)]

/-- An environment whose clock advances one second per `time.time()` call,
whose list calls always answer 200 with the single message id `"7"`, and
whose fetch calls always answer 200 with an empty record array. -/
def envEmptyFetch : WaitEnv where
clock := fun n => (n : Int)
listHttp := fun _ => constAttempt (HttpAttempt.resp 200 (envelope (JVal.arr [JVal.s "7"])))
fetchHttp := fun _ => constAttempt (HttpAttempt.resp 200 (envelope (JVal.arr [])))

/-- An environment whose clock advances one second per `time.time()` call
and whose list calls always answer 200 with an empty id array (a service
that never has a message). -/
def envNeverMail : WaitEnv where
clock := fun n => (n : Int)
listHttp := fun _ => constAttempt (HttpAttempt.resp 200 (envelope (JVal.arr [])))
fetchHttp := fun _ => constAttempt (HttpAttempt.resp 200 (envelope (JVal.arr [])))

/-- Whether a JSON value is an object (a Python dict). -/
def isObj : JVal → Bool
| JVal.obj _ => true
| _ => false

/-- Whether a JSON object has a member named `k` (`false` on non-objects);
on objects this is exactly the Python test `k in d`. -/
def hasField (d : JVal) (k : String) : Bool :=
match d with
| JVal.obj fields => fields.any (fun kv => kv.fst == k)
| _ => false

/-
Theorems.
-/

/-- Both raise sites of src/developer/email.py pass the keyword `status`,
which `EmailException.init` (whose parameters are `stats` and `message`)
does not accept: what actually propagates is a `TypeError`, never an
`EmailException`. -/
theorem raiseEmailException_status_kw (v : Option Int) (m : String) :
    raiseEmailException "status" v m =
      PyError.typeError "init got an unexpected keyword argument status" := rfl

/-- A membership test succeeding on an association list produces a lookup
witness. -/
theorem dictFind_of_any (fields : List (String × JVal)) (k : String)
    (h : fields.any (fun kv => kv.fst == k) = true) :
    ∃ v, dictFind fields k = some v := by
  induction fields with
  | nil => simp at h
  | cons kv rest ih =>
    cases hk : (kv.fst == k) with
    | true => exact ⟨kv.snd, by simp [dictFind, List.find?_cons, hk]⟩
    | false =>
      have h2 : rest.any (fun kv => kv.fst == k) = true := by
        rw [List.any_cons, hk] at h
        simpa using h
      rcases ih h2 with ⟨v, hv⟩
      refine ⟨v, ?_⟩
      unfold dictFind at hv ⊢
      rw [List.find?_cons, hk]
      exact hv

/-- The envelope unwrapping `data.get("result")` recovers the wrapped
payload. -/
theorem pyGetResult_envelope (v : JVal) : pyGetResult (envelope v) = v := rfl

/-- One step of the `__http_req` loop on an HTTP 200 response: the body is
parsed and the `result` member returned at once. -/
theorem http_req_loop_200 (oracle : Nat → HttpAttempt) (m u : String)
    (p : Option JVal) (attempts attempt remaining : Nat)
    (body : List (String × JVal))
    (h : oracle attempt = HttpAttempt.resp 200 body) :
    http_req_loop oracle m u p attempts attempt (remaining + 1) =
      ([Event.request m u p], Except.ok (pyGetResult body)) := by
  simp [http_req_loop, h]

/-- One step of the `__http_req` loop on a non-200 response: the body is
not inspected and the loop moves straight to the next attempt. -/
theorem http_req_loop_non200 (oracle : Nat → HttpAttempt) (m u : String)
    (p : Option JVal) (attempts attempt remaining : Nat)
    (status : Nat) (body : List (String × JVal))
    (h : oracle attempt = HttpAttempt.resp status body) (hs : status ≠ 200) :
    http_req_loop oracle m u p attempts attempt (remaining + 1) =
      (Event.request m u p ::
         (http_req_loop oracle m u p attempts (attempt + 1) remaining).1,
       (http_req_loop oracle m u p attempts (attempt + 1) remaining).2) := by
  simp [http_req_loop, h, hs]

/-- One step of the `__http_req` loop on a transport exception before the
final attempt: sleep one second, then retry. -/
theorem http_req_loop_exn_retry (oracle : Nat → HttpAttempt) (m u : String)
    (p : Option JVal) (attempts attempt remaining : Nat) (e : String)
    (h : oracle attempt = HttpAttempt.exn e) (hfin : attempt ≠ attempts - 1) :
    http_req_loop oracle m u p attempts attempt (remaining + 1) =
      (Event.request m u p :: Event.sleep 1 ::
         (http_req_loop oracle m u p attempts (attempt + 1) remaining).1,
       (http_req_loop oracle m u p attempts (attempt + 1) remaining).2) := by
  simp [http_req_loop, h, hfin]

/-- The last step of the `__http_req` loop on a transport exception at the
final attempt: the code tries to re-raise it wrapped as
`EmailException(status=500, message=str(e))`, and the keyword mismatch
makes a `TypeError` propagate instead. -/
theorem http_req_loop_exn_final (oracle : Nat → HttpAttempt) (m u : String)
    (p : Option JVal) (attempts attempt remaining : Nat) (e : String)
    (h : oracle attempt = HttpAttempt.exn e) (hfin : attempt = attempts - 1) :
    http_req_loop oracle m u p attempts attempt (remaining + 1) =
      ([Event.request m u p],
       Except.error (PyError.typeError "init got an unexpected keyword argument status")) := by
  subst hfin
  simp [http_req_loop, h, raiseEmailException_status_kw]

/-- C3: failing-input evaluation.  With `maxAttempts = 3` and every attempt
answering a non-200 status (here 500, 404 and 503, with arbitrary bodies
`b0`, `b1`, `b2`), `__http_req` does treat each non-200 status as
retryable — three attempts are issued and the outcome does not depend on
the bodies, which are free variables here — but once the attempts are
exhausted, the `raise EmailException(status=500, message="Failed after
multiple attempts")` at src/developer/email.py line 65 aborts with a
`TypeError` (the keyword `status` matches no parameter of
`EmailException.init`, whose first parameter is spelled `stats`), not
with the `ServiceError` carrying status 500 and message "Failed after
multiple attempts" that the claim states. -/
theorem C3_code_bug_eval (b0 b1 b2 : List (String × JVal)) (m u : String)
    (p : Option JVal) :
    http_req (fun n => if n = 0 then HttpAttempt.resp 500 b0
                       else if n = 1 then HttpAttempt.resp 404 b1
                       else HttpAttempt.resp 503 b2) m u p 3 =
      ([Event.request m u p, Event.request m u p, Event.request m u p],
       Except.error (PyError.typeError "init got an unexpected keyword argument status")) := by
  rw [http_req,
      http_req_loop_non200 _ m u p 3 0 2 500 b0 rfl (by decide),
      http_req_loop_non200 _ m u p 3 1 1 404 b1 rfl (by decide),
      http_req_loop_non200 _ m u p 3 2 0 503 b2 rfl (by decide)]
  rfl

/-- C4: failing-input evaluation.  With `maxAttempts = 3` and every attempt
ending in a transport exception (texts `e0`, `e1`, `e2`), `__http_req`
does sleep a fixed 1 second after each non-final exception and retry, but
on the final attempt the `raise EmailException(status=500,
message=str(e))` at src/developer/email.py line 62 aborts with a
`TypeError` (the keyword `status` matches no parameter of
`EmailException.init`), not with the wrapped `ServiceError` of status
500 that the claim states. -/
theorem C4_code_bug_eval (e0 e1 e2 : String) (m u : String) (p : Option JVal) :
    http_req (fun n => if n = 0 then HttpAttempt.exn e0
                       else if n = 1 then HttpAttempt.exn e1
                       else HttpAttempt.exn e2) m u p 3 =
      ([Event.request m u p, Event.sleep 1, Event.request m u p, Event.sleep 1,
        Event.request m u p],
       Except.error (PyError.typeError "init got an unexpected keyword argument status")) := by
  rw [http_req,
      http_req_loop_exn_retry _ m u p 3 0 2 e0 rfl (by decide),
      http_req_loop_exn_retry _ m u p 3 1 1 e1 rfl (by decide),
      http_req_loop_exn_final _ m u p 3 2 0 e2 rfl (by decide)]

/-- C6: a call of the low-level request primitive whose first two attempts
fail with a transport exception and whose third attempt returns HTTP 200
(within `maxAttempts = 3`) sleeps one second after each failure, retries,
and returns the `result` member of the JSON body of the successful
attempt, with no error surfaced. -/
theorem C6_transport_retry_success (oracle : Nat → HttpAttempt)
    (m u : String) (p : Option JVal) (e0 e1 : String)
    (body : List (String × JVal))
    (h0 : oracle 0 = HttpAttempt.exn e0)
    (h1 : oracle 1 = HttpAttempt.exn e1)
    (h2 : oracle 2 = HttpAttempt.resp 200 body) :
    http_req oracle m u p 3 =
      ([Event.request m u p, Event.sleep 1, Event.request m u p, Event.sleep 1,
        Event.request m u p],
       Except.ok (pyGetResult body)) := by
  rw [http_req,
      http_req_loop_exn_retry _ m u p 3 0 2 e0 h0 (by decide),
      http_req_loop_exn_retry _ m u p 3 1 1 e1 h1 (by decide),
      http_req_loop_200 _ m u p 3 2 0 body h2]

/-- C6 witness: two connection failures followed by a 200 response carrying
`result = "hi"` produce the payload `"hi"` and the trace
request-sleep-request-sleep-request. -/
theorem C6_witness :
    http_req (fun n => if n = 2 then HttpAttempt.resp 200 (envelope (JVal.s "hi"))
                       else HttpAttempt.exn "connection reset") "GET" "u" none 3 =
      ([Event.request "GET" "u" none, Event.sleep 1, Event.request "GET" "u" none,
        Event.sleep 1, Event.request "GET" "u" none],
       Except.ok (JVal.s "hi")) :=
  C6_transport_retry_success _ "GET" "u" none "connection reset" "connection reset"
    (envelope (JVal.s "hi")) rfl rfl rfl

/-- C7: fetching ids `[1, 2]` against the service response
`[\x7b"key": 1, "value": "a"\x7d, \x7b"key": 2, "value": "b"\x7d]`
returns exactly two records, in response order, whose `id` and `content`
fields are the `key` and `value` of the corresponding record. -/
theorem C7_fetch_two_messages :
    (get_messages (constAttempt (HttpAttempt.resp 200 (envelope (JVal.arr
        [JVal.obj [("key", JVal.i 1), ("value", JVal.s "a")],
         JVal.obj [("key", JVal.i 2), ("value", JVal.s "b")]]))))
      "v1" "box" "tok" [JVal.i 1, JVal.i 2]).2 =
      Except.ok { mails := [{ id := JVal.i 1, content := JVal.s "a" },
                            { id := JVal.i 2, content := JVal.s "b" }] } := rfl

/-- C8: when the first attempt of the list call is answered 200 with the
empty id array, `get_message_ids` returns the empty id sequence after a
single request and raises nothing. -/
theorem C8_empty_mailbox (oracle : Nat → HttpAttempt)
    (version mailbox_name token : String)
    (h0 : oracle 0 = HttpAttempt.resp 200 (envelope (JVal.arr []))) :
    get_message_ids oracle version mailbox_name token =
      ([Event.request "GET" (base_url version ++ "/mailbox/" ++ mailbox_name) none],
       Except.ok { mails := [] }) := by
  have h : http_req oracle "GET" (base_url version ++ "/mailbox/" ++ mailbox_name) none 3 =
      ([Event.request "GET" (base_url version ++ "/mailbox/" ++ mailbox_name) none],
       Except.ok (pyGetResult (envelope (JVal.arr [])))) := by
    rw [http_req, http_req_loop_200 _ _ _ none 3 0 2 _ h0]
  simp only [get_message_ids, h]
  rfl

/-- C8 witness: a service constantly answering 200 with the empty id array
yields the empty sequence on a mailbox named box. -/
theorem C8_witness :
    get_message_ids (constAttempt (HttpAttempt.resp 200 (envelope (JVal.arr []))))
      "v1" "box" "tok" =
      ([Event.request "GET" "https://www.developermail.com/api/v1/mailbox/box" none],
       Except.ok { mails := [] }) :=
  C8_empty_mailbox _ "v1" "box" "tok" rfl

/-- Every successfully constructed `CreateEmail` carries the constant
domain and the address built by the f-string from the name and that
domain. -/
theorem CreateEmail_from_dict_ok (data : JVal) (ce : CreateEmail)
    (h : CreateEmail.from_dict data = Except.ok ce) :
    ce.domain = "developermail.com" ∧ ce.email = pyStr ce.name ++ "@" ++ ce.domain := by
  unfold CreateEmail.from_dict at h
  cases hn : subscript data "name" with
  | error e => rw [hn] at h; cases h
  | ok n =>
    rw [hn] at h
    cases ht : subscript data "token" with
    | error e => rw [ht] at h; cases h
    | ok t =>
      rw [ht] at h
      cases h
      refine ⟨rfl, ?_⟩
      show pyStr n ++ "@developermail.com" = pyStr n ++ "@" ++ "developermail.com"
      rw [String.append_assoc]
      rfl

/-- C9: for every successful `create_mail` call the returned record has
domain equal to the constant service domain and address equal to the
interpolation name at domain of its own fields. -/
theorem C9_create_address (oracle : Nat → HttpAttempt) (version : String)
    (ce : CreateEmail)
    (h : (create_mail oracle version).2 = Except.ok ce) :
    ce.domain = "developermail.com" ∧ ce.email = pyStr ce.name ++ "@" ++ ce.domain := by
  simp only [create_mail] at h
  cases hr : (http_req oracle "PUT" (base_url version ++ "/mailbox") none 3).2 with
  | error e =>
    rw [hr] at h
    simp [Except.bind] at h
  | ok d =>
    rw [hr] at h
    exact CreateEmail_from_dict_ok d ce (by simpa [Except.bind] using h)

/-- C9 witness: a creation response with name bob and token t1 produces the
address bob at developermail.com with the constant domain field. -/
theorem C9_witness :
    ({ name := JVal.s "bob", domain := "developermail.com",
       email := "bob@developermail.com", token := JVal.s "t1" } : CreateEmail).domain =
        "developermail.com" ∧
    ({ name := JVal.s "bob", domain := "developermail.com",
       email := "bob@developermail.com", token := JVal.s "t1" } : CreateEmail).email =
      pyStr (JVal.s "bob") ++ "@" ++
        ({ name := JVal.s "bob", domain := "developermail.com",
           email := "bob@developermail.com", token := JVal.s "t1" } : CreateEmail).domain :=
  C9_create_address (constAttempt (HttpAttempt.resp 200 (envelope
    (JVal.obj [("name", JVal.s "bob"), ("token", JVal.s "t1")])))) "v1" _ rfl

/-- When every record is a JSON object and some record has neither a `key`
nor a `value` member, the record loop of `ViewEmail.from_dict` raises
`ValueError("Invalid format for email data dictionary")`. -/
theorem viewEmailEntries_invalid (xs : List JVal)
    (hobj : ∀ d ∈ xs, isObj d = true)
    (hbad : ∃ d ∈ xs, hasField d "key" = false ∧ hasField d "value" = false) :
    viewEmailEntries xs =
      Except.error (PyError.valueError "Invalid format for email data dictionary") := by
  induction xs with
  | nil => simp at hbad
  | cons d rest ih =>
    obtain ⟨fields, rfl⟩ : ∃ fs, d = JVal.obj fs := by
      have hd := hobj d (List.mem_cons_self d rest)
      cases d <;> simp [isObj] at hd <;> exact ⟨_, rfl⟩
    have hrest : ∀ x ∈ rest, isObj x = true :=
      fun x hx => hobj x (List.mem_cons_of_mem _ hx)
    rcases hbad with ⟨d0, hd0mem, hd0⟩
    rcases List.mem_cons.mp hd0mem with heq | hmem
    · have hk : fields.any (fun kv => kv.fst == "key") = false := by
        have := hd0.1
        rw [heq] at this
        simpa [hasField] using this
      simp [viewEmailEntries, pyContains, hk]
    · cases hk : fields.any (fun kv => kv.fst == "key") with
      | false => simp [viewEmailEntries, pyContains, hk]
      | true =>
        cases hv : fields.any (fun kv => kv.fst == "value") with
        | false => simp [viewEmailEntries, pyContains, hk, hv]
        | true =>
          rcases dictFind_of_any fields "key" hk with ⟨vk, hvk⟩
          rcases dictFind_of_any fields "value" hv with ⟨vv, hvv⟩
          have hrec := ih hrest ⟨d0, hmem, hd0⟩
          simp [viewEmailEntries, pyContains, hk, hv, subscript, hvk, hvv, hrec]

/-- A successful run of the record loop of `ViewEmail.from_dict` pairs the
records and the produced emails one to one, in order: the `id`
and `content` are the `key` and `value` members of its record. -/
theorem viewEmailEntries_ok (xs : List JVal) (es : List Email)
    (h : viewEmailEntries xs = Except.ok es) :
    List.Forall₂ (fun d e => subscript d "key" = Except.ok e.id ∧
      subscript d "value" = Except.ok e.content) xs es := by
  induction xs generalizing es with
  | nil =>
    simp only [viewEmailEntries] at h
    cases h
    exact List.Forall₂.nil
  | cons d rest ih =>
    rw [viewEmailEntries] at h
    cases hck : pyContains d "key" with
    | error e => simp [hck] at h
    | ok hasKey =>
      cases hasKey with
      | false => simp [hck] at h
      | true =>
        cases hcv : pyContains d "value" with
        | error e => simp [hck, hcv] at h
        | ok hasValue =>
          cases hasValue with
          | false => simp [hck, hcv] at h
          | true =>
            cases hsk : subscript d "key" with
            | error e => simp [hck, hcv, hsk] at h
            | ok vk =>
              cases hsv : subscript d "value" with
              | error e => simp [hck, hcv, hsk, hsv] at h
              | ok vv =>
                cases hrec : viewEmailEntries rest with
                | error e => simp [hck, hcv, hsk, hsv, hrec] at h
                | ok tail =>
                  simp [hck, hcv, hsk, hsv, hrec] at h
                  subst h
                  exact List.Forall₂.cons ⟨hsk, hsv⟩ (ih tail hrec)

/-- C5 counterexample: the service answers the fetch with the single record
`\x7b\x7d`, an object lacking both a `key` and a `value` member.
`get_messages` does fail on it after a single request, but what it raises
is the builtin `ValueError` of src/developer/models.py line 48 — not an
`EmailException` (the embedding of the `ServiceError` of the spec, a distinct
`PyError` constructor), as the claim states. -/
theorem C5_counterexample :
    get_messages (constAttempt (HttpAttempt.resp 200 (envelope (JVal.arr [JVal.obj []]))))
      "v1" "box" "tok" [JVal.i 1] =
      ([Event.request "POST" "https://www.developermail.com/api/v1/mailbox/box/messages"
          (some (JVal.obj [("message_ids", JVal.arr [JVal.i 1])]))],
       Except.error (PyError.valueError "Invalid format for email data dictionary")) := rfl

/-- C5 as amended: when the fetch call is answered 200 with an array of
record objects, `get_messages` fails with the builtin `ValueError`
carrying the distinct message "Invalid format for email data dictionary"
whenever some record lacks both the `key` and the `value` member, and it
does so after a single HTTP request (the failure is not retried);
and there is no partial success: whenever `get_messages` returns a batch,
the batch pairs the response records one to one in order, each email
taking its `id` from the `key` member of its record and its `content`
from the `value` member. -/
theorem C5_integrity_error (oracle : Nat → HttpAttempt)
    (version mailbox_name token : String) (message_ids : List JVal)
    (records : List JVal)
    (h200 : oracle 0 = HttpAttempt.resp 200 (envelope (JVal.arr records)))
    (hobj : ∀ d ∈ records, isObj d = true) :
    ((∃ d ∈ records, hasField d "key" = false ∧ hasField d "value" = false) →
      get_messages oracle version mailbox_name token message_ids =
        ([Event.request "POST"
            (base_url version ++ "/mailbox/" ++ mailbox_name ++ "/messages")
            (some (JVal.obj [("message_ids", JVal.arr message_ids)]))],
         Except.error (PyError.valueError "Invalid format for email data dictionary")))
  ∧ (∀ ve, (get_messages oracle version mailbox_name token message_ids).2 = Except.ok ve →
      List.Forall₂ (fun d e => subscript d "key" = Except.ok e.id ∧
        subscript d "value" = Except.ok e.content) records ve.mails) := by
  have hhttp : http_req oracle "POST"
      (base_url version ++ "/mailbox/" ++ mailbox_name ++ "/messages")
      (some (JVal.obj [("message_ids", JVal.arr message_ids)])) 3 =
      ([Event.request "POST"
          (base_url version ++ "/mailbox/" ++ mailbox_name ++ "/messages")
          (some (JVal.obj [("message_ids", JVal.arr message_ids)]))],
       Except.ok (JVal.arr records)) := by
    rw [http_req, http_req_loop_200 _ _ _ _ 3 0 2 _ h200, pyGetResult_envelope]
  constructor
  · intro hbad
    simp only [get_messages, hhttp]
    simp [Except.bind, ViewEmail.from_dict, pyIter,
      viewEmailEntries_invalid records hobj hbad]
  · intro ve hve
    simp only [get_messages, hhttp] at hve
    cases hrec : viewEmailEntries records with
    | error e => simp [Except.bind, ViewEmail.from_dict, pyIter, hrec] at hve
    | ok es =>
      simp [Except.bind, ViewEmail.from_dict, pyIter, hrec] at hve
      rw [← hve]
      exact viewEmailEntries_ok records es hrec

/-- C5 witness: the single record `\x7b"nokey": 1\x7d` is an object that
lacks both a `key` and a `value` member, so the fetch fails with the
integrity `ValueError` after one request. -/
theorem C5_witness :
    get_messages (constAttempt (HttpAttempt.resp 200
        (envelope (JVal.arr [JVal.obj [("nokey", JVal.i 1)]]))))
      "v1" "box" "tok" [JVal.i 1] =
      ([Event.request "POST" "https://www.developermail.com/api/v1/mailbox/box/messages"
          (some (JVal.obj [("message_ids", JVal.arr [JVal.i 1])]))],
       Except.error (PyError.valueError "Invalid format for email data dictionary")) :=
  (C5_integrity_error _ "v1" "box" "tok" [JVal.i 1] [JVal.obj [("nokey", JVal.i 1)]] rfl
      (by intro d hd; rcases List.mem_singleton.mp hd with rfl; rfl)).1
    ⟨JVal.obj [("nokey", JVal.i 1)], by simp, rfl, rfl⟩

/-- C1 counterexample: the service answers the list call with the single id
"7" and the fetch call with an empty record array.  The run returns at
once — the trace is one GET then one POST of id 7, with no sleep — while
the returned batch holds zero messages, contradicting the claim that the
call returns immediately only if the fetch returns at least one message.
A `ViewEmail` dataclass instance defines neither a bool nor a len method
and is therefore always truthy, so `if messages:` at
src/developer/email.py line 177 cannot test emptiness. -/
theorem C1_counterexample :
    wait_for_email envEmptyFetch "v1" "box" "tok" 60 5 5 =
      ([Event.request "GET" "https://www.developermail.com/api/v1/mailbox/box" none,
        Event.request "POST" "https://www.developermail.com/api/v1/mailbox/box/messages"
          (some (JVal.obj [("message_ids", JVal.arr [JVal.i 7])]))],
       some (Except.ok { mails := [] })) := rfl

/-- C1 as amended: each poll iteration whose deadline test still passes
calls `get_message_ids`; when the returned id list is empty, the
iteration appends one `sleep check_interval` and continues with the next
iteration; when it is non-empty, the iteration calls `get_messages` on
exactly the one-element list holding the last id of the list, and
whenever that fetch call succeeds — with however many messages, zero
included — its result is returned immediately, with no sleep after the
fetch. -/
theorem C1_poll_step (env : WaitEnv) (version mailbox_name token : String)
    (timeout check_interval start_time : Int) (i fuel : Nat)
    (hclock : env.clock (i + 1) - start_time < timeout)
    (ids : EmailIds)
    (hids : (get_message_ids (env.listHttp i) version mailbox_name token).2 =
      Except.ok ids) :
    (ids.mails = [] →
      wait_loop env version mailbox_name token timeout check_interval start_time i
          (fuel + 1) =
        ((get_message_ids (env.listHttp i) version mailbox_name token).1 ++
           Event.sleep check_interval ::
             (wait_loop env version mailbox_name token timeout check_interval start_time
               (i + 1) fuel).1,
         (wait_loop env version mailbox_name token timeout check_interval start_time
           (i + 1) fuel).2))
  ∧ (∀ last, ids.mails.getLast? = some last →
      ∀ ve, (get_messages (env.fetchHttp i) version mailbox_name token
          [JVal.i last.id]).2 = Except.ok ve →
        wait_loop env version mailbox_name token timeout check_interval start_time i
            (fuel + 1) =
          ((get_message_ids (env.listHttp i) version mailbox_name token).1 ++
             (get_messages (env.fetchHttp i) version mailbox_name token
               [JVal.i last.id]).1,
           some (Except.ok ve))) := by
  rcases hgm : get_message_ids (env.listHttp i) version mailbox_name token with ⟨evs1, r1⟩
  rw [hgm] at hids
  simp only at hids
  subst hids
  constructor
  · intro hnil
    simp only [wait_loop]
    rw [if_pos hclock, hgm]
    simp [hnil]
  · intro last hlast ve hfetch
    rcases hgf : get_messages (env.fetchHttp i) version mailbox_name token
        [JVal.i last.id] with ⟨evs2, r2⟩
    rw [hgf] at hfetch
    simp only at hfetch
    subst hfetch
    simp only [wait_loop]
    rw [if_pos hclock, hgm]
    simp [hlast, hgf]

/-- C1 witness: one amended poll step at iteration 0 of the environment
whose list call yields id 7 and whose fetch call yields zero records:
the loop fetches exactly id 7 and returns the empty batch at once. -/
theorem C1_witness :
    wait_loop envEmptyFetch "v1" "box" "tok" 60 5 0 0 1 =
      ([Event.request "GET" "https://www.developermail.com/api/v1/mailbox/box" none,
        Event.request "POST" "https://www.developermail.com/api/v1/mailbox/box/messages"
          (some (JVal.obj [("message_ids", JVal.arr [JVal.i 7])]))],
       some (Except.ok { mails := [] })) :=
  (C1_poll_step envEmptyFetch "v1" "box" "tok" 60 5 0 0 0 (by decide)
      { mails := [{ id := 7 }] } rfl).2
    { id := 7 } rfl { mails := [] } rfl

/-- C2: failing-input evaluation.  Against a service that never returns an
id, with `timeout = 2` and `check_interval = 1` and a clock advancing one
second per reading, the loop polls at elapsed 1 (list empty, sleeps 1),
finds elapsed 2 ≥ 2 at the next loop top and stops polling exactly then —
but the `raise EmailException(status=None, message=...)` at
src/developer/email.py line 180 aborts with a `TypeError` (the keyword
`status` matches no parameter of `EmailException.init`, whose first
parameter is spelled `stats`), not with the `ServiceError` of status
`None` the claim states. -/
theorem C2_code_bug_eval :
    wait_for_email envNeverMail "v1" "box" "tok" 2 1 10 =
      ([Event.request "GET" "https://www.developermail.com/api/v1/mailbox/box" none,
        Event.sleep 1],
       some (Except.error
         (PyError.typeError "init got an unexpected keyword argument status"))) := rfl

/-- C10: failing-input evaluation.  With `timeout = 0` and with
`timeout = -7` (and a monotone clock), the first `while` test fails at
once: the trace is empty — no list request, no fetch request, no sleep,
the loop body never ran — and the call raises immediately; but through
the keyword mismatch of the raise site the exception that propagates is a
`TypeError`, not the timeout `EmailException` of status `None`. -/
theorem C10_code_bug_eval :
    (wait_for_email envNeverMail "v1" "box" "tok" 0 5 3 =
      ([], some (Except.error
        (PyError.typeError "init got an unexpected keyword argument status")))) ∧
    (wait_for_email envNeverMail "v1" "box" "tok" (-7) 5 3 =
      ([], some (Except.error
        (PyError.typeError "init got an unexpected keyword argument status")))) :=
  ⟨rfl, rfl⟩

end DevMail
